import Mathlib

/-!
Shallow embedding of the Reservation-Bot core: the availability/booking
store (`dummyRestaurantDB`), the two tool handlers
(`check_restaurant_availability`, `book_table`) and the conversation
orchestrator (`ReservationAgentService.sendMessage`).

Conventions of the embedding:
* JavaScript objects keyed by strings/numbers become association lists in
  insertion order (`alookup` is property access, returning `Option`).
* `Math.random().toString(36).substr(2, 9).toUpperCase()` is modelled as an
  oracle `supply : Nat → String` giving the successive draws; the run state
  carries the index of the next draw (a draw is consumed only on the
  successful-booking path, where the source calls `Math.random()`).
* The Gemini chat client is an oracle: the initial response to the user
  message and a function from the tool `functionResponse` part to the
  follow-up response; either may fail with an error message, which the
  source catches (`try`/`catch`) and classifies.
* `"HH:MM"` times are parsed to minutes after midnight, as the source's
  `new Date("2000-01-01T" + t + ":00").getTime()` does for the two-digit
  `HH:MM` shapes the store and schema use; a string not of that shape
  yields `none` (an invalid `Date`, whose `NaN` comparisons exclude it).
-/

/-- Party-size map of a time slot: JS object `{2: true, 4: false}`. -/
abbrev PartyMap := List (Nat × Bool)

/-- One day's availability: JS object keyed by `"HH:MM"` time strings. -/
abbrev DayMap := List (String × PartyMap)

/-- The whole availability store, keyed by `"YYYY-MM-DD"` date strings. -/
abbrev AvailMap := List (String × DayMap)

/-- A committed booking record, as pushed onto `dummyRestaurantDB.bookings`. -/
structure Booking where
  date : String
  time : String
  partySize : Nat
  confirmation : String
deriving Repr, DecidableEq

/-- The mutable store `dummyRestaurantDB`: availability flags plus the booking log. -/
structure Store where
  availability : AvailMap
  bookings : List Booking
deriving Repr, DecidableEq

/-- JS property access on an object modelled as an association list. -/
def alookup {α β : Type} [DecidableEq α] (k : α) : List (α × β) → Option β
  | [] => none
  | (k', v) :: rest => if k' = k then some v else alookup k rest

/-- JS property assignment `obj[k] = v` on an association list
(updates the first binding of `k`, appends when `k` is absent). -/
def aset {α β : Type} [DecidableEq α] (k : α) (v : β) : List (α × β) → List (α × β)
  | [] => [(k, v)]
  | (k', v') :: rest => if k' = k then (k', v) :: rest else (k', v') :: aset k v rest

/-- The seed data of `dummyRestaurantDB.availability`. -/
def seedAvailability : AvailMap :=
  [("2024-08-01",
     [("18:00", [(2, true), (4, true)]),
      ("18:30", [(2, true), (4, false)]),
      ("19:00", [(2, true), (4, true)]),
      ("19:30", [(2, false), (4, true)]),
      ("20:00", [(2, true), (4, true)]),
      ("20:30", [(2, true), (4, false)])]),
   ("2024-08-02",
     [("18:00", [(2, true), (4, true)]),
      ("18:30", [(2, true), (4, true)]),
      ("19:00", [(2, true), (4, true)]),
      ("19:30", [(2, true), (4, true)]),
      ("20:00", [(2, true), (4, true)]),
      ("20:30", [(2, true), (4, true)])])]

/-- `dummyRestaurantDB` at module initialization: seed flags, empty booking log. -/
def dummyRestaurantDB : Store := ⟨seedAvailability, []⟩

/-- Numeric value of a decimal digit character, `none` otherwise. -/
def digitVal (c : Char) : Option Nat :=
  if '0' ≤ c ∧ c ≤ '9' then some (c.toNat - 48) else none

/-- Minutes after midnight of an `"HH:MM"` string; `none` when the string is
not of that shape (the source's `Date` parse is then invalid and every `NaN`
comparison is false). -/
def timeToMinutes (t : String) : Option Nat :=
  match t.data with
  | [h1, h2, ':', m1, m2] =>
    match digitVal h1, digitVal h2, digitVal m1, digitVal m2 with
    | some a, some b, some c, some d =>
      let hh := 10 * a + b
      let mm := 10 * c + d
      if hh < 24 ∧ mm < 60 then some (hh * 60 + mm) else none
    | _, _, _, _ => none
  | _ => none

/-- Absolute difference `Math.abs(a - b)` on minute counts. -/
def natDist (a b : Nat) : Nat := if a ≤ b then b - a else a - b

/-- One entry of the `availableSlots` list built by the availability tool. -/
structure AvailableSlot where
  time : String
  isAvailable : Bool
deriving Repr, DecidableEq

/-- The `RestaurantAvailabilityResult` shape returned by the availability tool. -/
structure RestaurantAvailabilityResult where
  available : Bool
  availableSlots : Option (List AvailableSlot)
  message : Option String
deriving Repr, DecidableEq

/-- The `BookingResult` shape returned by the booking tool. -/
structure BookingResult where
  success : Bool
  confirmationNumber : Option String
  message : Option String
deriving Repr, DecidableEq

/-- `dayAvailability[time]?.[partySize] || false`. -/
def requestedAvail (dm : DayMap) (time : String) (partySize : Nat) : Bool :=
  ((alookup time dm).bind (fun pm => alookup partySize pm)).getD false

/-- The candidate alternates the source collects: every known time of the day
whose parsed distance from the requested time is at most 30 minutes, tagged
with its own availability flag for `partySize`, in key-insertion order. -/
def candidateSlots (dm : DayMap) (time : String) (partySize : Nat) : List AvailableSlot :=
  dm.filterMap fun entry =>
    match timeToMinutes entry.1, timeToMinutes time with
    | some a, some b =>
      if natDist a b ≤ 30 then some ⟨entry.1, requestedAvail dm entry.1 partySize⟩ else none
    | _, _ => none

/-- Sort key used by the source's comparator: milliseconds of the parsed time,
here minutes (`0` for an unparsable string, which the seeded keys never are). -/
def slotKey (s : AvailableSlot) : Nat := (timeToMinutes s.time).getD 0

/-- The comparator's order: ascending clock time. -/
def slotLe (a b : AvailableSlot) : Prop := slotKey a ≤ slotKey b

instance : DecidableRel slotLe := fun a b => inferInstanceAs (Decidable (slotKey a ≤ slotKey b))

instance : IsTotal AvailableSlot slotLe := ⟨fun a b => Nat.le_total (slotKey a) (slotKey b)⟩

instance : IsTrans AvailableSlot slotLe := ⟨fun _ _ _ => Nat.le_trans⟩

/-- `availableSlots.sort((a, b) => timeA - timeB)`: stable ascending sort by
clock time (insertion sort is stable, as modern JS engine sorts are). -/
def sortSlots (l : List AvailableSlot) : List AvailableSlot := List.insertionSort slotLe l

/-- The `check_restaurant_availability` tool handler. `restaurant_name` and
`platform` are only logged by the source and do not affect the result. -/
def check_restaurant_availability (restaurant_name : Option String) (date time : String)
    (partySize : Nat) (platform : Option String) (store : Store) :
    RestaurantAvailabilityResult :=
  match alookup date store.availability with
  | none => ⟨false, none, some "No availability found for this date."⟩
  | some dayAvailability =>
    let requestedSlotAvailable := requestedAvail dayAvailability time partySize
    let availableSlots := sortSlots (candidateSlots dayAvailability time partySize)
    let actuallyAvailableSlots := availableSlots.filter (fun s => s.isAvailable)
    if requestedSlotAvailable then
      ⟨true, some [⟨time, true⟩], some "Slot is available."⟩
    else if actuallyAvailableSlots.length > 0 then
      ⟨false, some actuallyAvailableSlots,
        some "Requested slot unavailable, but other nearby slots are available."⟩
    else
      ⟨false, none, some "No suitable slots found within 30 minutes of your requested time."⟩

/-- The flag of the exact (date, time, partySize) slot, when all three levels exist. -/
def slotFlag (date time : String) (partySize : Nat) (store : Store) : Option Bool :=
  (alookup date store.availability).bind fun dm =>
    (alookup time dm).bind fun pm => alookup partySize pm

/-- `dummyRestaurantDB.availability[date][time][partySize] = false`: the inner
party-size object reached through the `date` and `time` properties gets its
`partySize` property assigned `false` (a no-op when the path is missing, which
the guard in `book_table` rules out). -/
def clearFlag (date time : String) (partySize : Nat) (m : AvailMap) : AvailMap :=
  match alookup date m with
  | none => m
  | some dm =>
    match alookup time dm with
    | none => m
    | some pm => aset date (aset time (aset partySize false pm) dm) m

/-- The `book_table` tool handler. The guard
`!dayAvailability || !dayAvailability[time] || !dayAvailability[time][partySize]`
fails exactly when the slot's flag is not present-and-`true`; on success the
flag is cleared and one booking with confirmation `"RES-" ++ draw` is pushed,
where `draw` is the `Math.random()` string drawn on this call. -/
def book_table (restaurant_name : Option String) (date time : String) (partySize : Nat)
    (draw : String) (store : Store) : BookingResult × Store :=
  if (slotFlag date time partySize store).getD false = false then
    (⟨false, none, some "The requested slot is no longer available or never existed."⟩, store)
  else
    let confirmationNumber := "RES-" ++ draw
    (⟨true, some confirmationNumber, some "Booking successful."⟩,
     ⟨clearFlag date time partySize store.availability,
      store.bookings ++ [⟨date, time, partySize, confirmationNumber⟩]⟩)

/-- Run state: the shared store plus the index of the next `Math.random()` draw. -/
abbrev RunState := Store × Nat

/-- One tool-handler invocation, with the arguments the dispatcher extracts. -/
inductive ToolCall where
  | check (restaurant_name : Option String) (date time : String) (partySize : Nat)
      (platform : Option String)
  | book (restaurant_name : Option String) (date time : String) (partySize : Nat)
deriving Repr, DecidableEq

/-- The payload of a tool result sent back to the model: one of the two
handler result shapes, or the structured `{error: ...}` object. -/
inductive ToolPayload where
  | availability (r : RestaurantAvailabilityResult)
  | booking (r : BookingResult)
  | error (msg : String)
deriving Repr, DecidableEq

/-- Execute one tool-handler call against the run state. The availability
check reads the store only; a booking consumes one random draw exactly when
it succeeds (the source calls `Math.random()` only on the success path). -/
def applyTool (supply : Nat → String) (c : ToolCall) (s : RunState) : ToolPayload × RunState :=
  match c with
  | .check rn d t p pl => (.availability (check_restaurant_availability rn d t p pl s.1), s)
  | .book rn d t p =>
    let r := book_table rn d t p (supply s.2) s.1
    (.booking r.1, (r.2, if r.1.success then s.2 + 1 else s.2))

/-- Run a sequence of tool-handler calls, threading the state. -/
def runCalls (supply : Nat → String) : List ToolCall → RunState → RunState
  | [], s => s
  | c :: cs, s => runCalls supply cs (applyTool supply c s).2

/-- A tool-call request found on a model response (`fc.name`, `fc.args`, `fc.id`). -/
structure FunctionCall where
  id : Option String
  name : String
  restaurant_name : Option String
  date : String
  time : String
  partySize : Nat
  platform : Option String
deriving Repr, DecidableEq

/-- One model response: `chatResponse.text` and `chatResponse.functionCalls`. -/
structure ModelResponse where
  text : Option String
  functionCalls : List FunctionCall

/-- The `functionResponse` part sent back to the model after a tool call. -/
structure FunctionResponsePart where
  id : Option String
  name : String
  result : ToolPayload

/-- The Gemini chat client as an oracle: the response to the user message and,
for each `functionResponse` part, the follow-up response; either interaction
may fail (throw) with an error message. -/
structure ChatOracle where
  initial : Except String ModelResponse
  followup : FunctionResponsePart → Except String ModelResponse

/-- Trace entry pushed onto `functionCalls` for each requested call reached. -/
structure FunctionCallTrace where
  functionCall : FunctionCall
deriving Repr, DecidableEq

/-- Trace entry pushed onto `toolResponses` for each executed (or unknown) call. -/
structure ToolResponseTrace where
  name : String
  result : ToolPayload
deriving Repr, DecidableEq

/-- The value `sendMessage` resolves with. In the `catch` path the source
returns only `text`, so the trace fields are `none` there. -/
structure TurnResult where
  text : String
  functionCalls : Option (List FunctionCallTrace)
  toolResponses : Option (List ToolResponseTrace)
deriving Repr, DecidableEq

/-- Property names an object literal inherits from `Object.prototype`: the
lookup `this.toolFunctions[name]` resolves these through the prototype chain
to a truthy value (a function, or the prototype object for `__proto__`) even
though they are not registered tools. -/
def protoProps : List String :=
  ["constructor", "hasOwnProperty", "isPrototypeOf", "propertyIsEnumerable",
   "toLocaleString", "toString", "valueOf",
   "__defineGetter__", "__defineSetter__", "__lookupGetter__", "__lookupSetter__",
   "__proto__"]

/-- Truthiness of `this.toolFunctions[functionName]`: the object literal's own
properties are exactly the two tool names, but JS property lookup also walks
the prototype chain, so the `Object.prototype`-inherited names are truthy too
and take the registered branch in the source. -/
def registryHas (name : String) : Bool :=
  name == "check_restaurant_availability" || name == "book_table" ||
    protoProps.contains name

/-- The inner dispatch for a truthy lookup: run the matching handler. The
final `Function ... not handled.` arm is reached exactly by the names that are
truthy only through prototype inheritance (e.g. `toString`), which fall
through both equality tests. -/
def dispatchPayload (fc : FunctionCall) (st : RunState) (supply : Nat → String) :
    ToolPayload × RunState :=
  if fc.name == "check_restaurant_availability" then
    (.availability (check_restaurant_availability fc.restaurant_name fc.date fc.time
        fc.partySize fc.platform st.1), st)
  else if fc.name == "book_table" then
    let r := book_table fc.restaurant_name fc.date fc.time fc.partySize (supply st.2) st.1
    (.booking r.1, (r.2, if r.1.success then st.2 + 1 else st.2))
  else
    (.error ("Function " ++ fc.name ++ " not handled."), st)

/-- `xs.isPrefixOf ys` on character lists, written out. -/
def charsHavePre : List Char → List Char → Bool
  | [], _ => true
  | _ :: _, [] => false
  | a :: as, b :: bs => a == b && charsHavePre as bs

/-- `String.includes`: does `pat` occur as a contiguous substring? -/
def charsHaveSub (pat : List Char) : List Char → Bool
  | [] => pat.isEmpty
  | c :: rest => charsHavePre pat (c :: rest) || charsHaveSub pat rest

/-- `msg.includes(pat)` of the source's catch block. -/
def containsSub (msg pat : String) : Bool := charsHaveSub pat.data msg.data

/-- The `catch` block's classification of a thrown error message. -/
def classifyError (msg : String) : String :=
  if containsSub msg "400 Bad Request" && containsSub msg "requested entity was not found" then
    "I encountered an issue processing your request. Please try again or re-select your API key if prompted."
  else
    "Sorry, I encountered an error: " ++ msg

/-- `ReservationAgentService.sendMessage`, one turn. The loop over
`chatResponse.functionCalls` returns inside its first iteration in both the
registered-tool and the unknown-tool branch, so only the head call is ever
reached; a failure thrown by either chat interaction is caught and classified,
and the store mutation already performed survives (it is module-global). -/
def sendMessage (oracle : ChatOracle) (supply : Nat → String) (st : RunState) :
    TurnResult × RunState :=
  match oracle.initial with
  | .error e => (⟨classifyError e, none, none⟩, st)
  | .ok resp =>
    match resp.functionCalls with
    | [] => (⟨resp.text.getD "", some [], some []⟩, st)
    | fc :: _ =>
      if registryHas fc.name then
        let pr := dispatchPayload fc st supply
        match oracle.followup ⟨fc.id, fc.name, pr.1⟩ with
        | .error e => (⟨classifyError e, none, none⟩, pr.2)
        | .ok r2 =>
          (⟨r2.text.getD "", some [⟨fc⟩], some [⟨fc.name, pr.1⟩]⟩, pr.2)
      else
        let payload := ToolPayload.error ("Function " ++ fc.name ++ " not found.")
        match oracle.followup ⟨fc.id, fc.name, payload⟩ with
        | .error e => (⟨classifyError e, none, none⟩, st)
        | .ok r2 =>
          (⟨r2.text.getD "", some [⟨fc⟩], some [⟨fc.name, payload⟩]⟩, st)

/-- `getApiKey`: reads `process.env.API_KEY`; `!apiKey` rejects both an unset
and an empty value. -/
def getApiKey (env : Option String) : Except String String :=
  match env with
  | none => .error "API_KEY is not defined in environment variables."
  | some k =>
    if k = "" then .error "API_KEY is not defined in environment variables." else .ok k

/-- The constructed service: `initChat` has created the chat session with the
validated key. -/
structure ReservationAgentService where
  apiKey : String
deriving Repr, DecidableEq

/-- The constructor: it runs `initChat`, which calls `getApiKey` at once, so a
missing credential surfaces at construction time. -/
def mkReservationAgentService (env : Option String) : Except String ReservationAgentService :=
  (getApiKey env).map fun k => ⟨k⟩

/-! ### Association-list lemmas -/

theorem alookup_aset_self {α β : Type} [DecidableEq α] (k : α) (v : β) (l : List (α × β)) :
    alookup k (aset k v l) = some v := by
  induction l with
  | nil => simp [aset, alookup]
  | cons e rest ih =>
    obtain ⟨k', v'⟩ := e
    by_cases hk : k' = k
    · simp [aset, hk, alookup]
    · simp [aset, hk, alookup, ih]

theorem alookup_aset_ne {α β : Type} [DecidableEq α] (k q : α) (v : β) (l : List (α × β))
    (hne : q ≠ k) : alookup q (aset k v l) = alookup q l := by
  have hkq : k ≠ q := fun h => hne h.symm
  induction l with
  | nil => simp [aset, alookup, hkq]
  | cons e rest ih =>
    obtain ⟨k', v'⟩ := e
    by_cases hk : k' = k
    · subst hk
      simp [aset, alookup, hkq]
    · by_cases hq : k' = q
      · simp [aset, hk, alookup, hq, hne]
      · simp [aset, hk, alookup, hq, ih]

/-- After the clearing assignment, the exact slot's flag reads `false`
(provided the date and time levels exist, as they do whenever the slot's flag
was readable at all). -/
theorem slotFlag_clearFlag_self (d t : String) (p : Nat) (s : Store) (bs : List Booking)
    (h : (slotFlag d t p s).isSome) :
    slotFlag d t p ⟨clearFlag d t p s.availability, bs⟩ = some false := by
  unfold slotFlag at h ⊢
  cases hd : alookup d s.availability with
  | none => simp [hd] at h
  | some dm =>
    cases ht : alookup t dm with
    | none => simp [hd, ht] at h
    | some pm =>
      simp [clearFlag, hd, ht, alookup_aset_self]

/-- The clearing assignment touches no other (date, time, partySize) key. -/
theorem slotFlag_clearFlag_ne (d t : String) (p : Nat) (d' t' : String) (p' : Nat)
    (s : Store) (bs : List Booking) (h : ¬(d' = d ∧ t' = t ∧ p' = p)) :
    slotFlag d' t' p' ⟨clearFlag d t p s.availability, bs⟩ = slotFlag d' t' p' s := by
  unfold slotFlag
  cases hd : alookup d s.availability with
  | none => simp [clearFlag, hd]
  | some dm =>
    cases ht : alookup t dm with
    | none => simp [clearFlag, hd, ht]
    | some pm =>
      simp only [clearFlag, hd, ht]
      by_cases hdd : d' = d
      · subst hdd
        rw [alookup_aset_self]
        rw [hd]
        by_cases htt : t' = t
        · subst htt
          rw [Option.some_bind, Option.some_bind, alookup_aset_self, ht,
            Option.some_bind, Option.some_bind]
          have hp : p' ≠ p := fun hp => h ⟨rfl, rfl, hp⟩
          exact alookup_aset_ne p p' false pm hp
        · rw [Option.some_bind, Option.some_bind, alookup_aset_ne t t' _ dm htt]
      · rw [alookup_aset_ne d d' _ s.availability hdd]

/-- `o.getD false = false` says exactly that `o` is not present-and-`true`. -/
theorem getD_false_eq_false_iff (o : Option Bool) : o.getD false = false ↔ o ≠ some true := by
  cases o with
  | none => simp
  | some b => cases b <;> simp

/-! ### C1 and C2: the booking tool -/

/-- Evaluation of `book_table` on the failure path. -/
theorem book_table_fail_eq (rn : Option String) (d t : String) (p : Nat)
    (draw : String) (s : Store) (h : slotFlag d t p s ≠ some true) :
    book_table rn d t p draw s =
      (⟨false, none, some "The requested slot is no longer available or never existed."⟩, s) := by
  have hcond : (slotFlag d t p s).getD false = false := (getD_false_eq_false_iff _).mpr h
  unfold book_table
  rw [hcond]
  simp

/-- Evaluation of `book_table` on the success path. -/
theorem book_table_success_eq (rn : Option String) (d t : String) (p : Nat)
    (draw : String) (s : Store) (h : slotFlag d t p s = some true) :
    book_table rn d t p draw s =
      (⟨true, some ("RES-" ++ draw), some "Booking successful."⟩,
       ⟨clearFlag d t p s.availability, s.bookings ++ [⟨d, t, p, "RES-" ++ draw⟩]⟩) := by
  have hcond : (slotFlag d t p s).getD false = true := by rw [h]; rfl
  unfold book_table
  rw [hcond]
  simp

/-- Claim C1: booking an existing slot whose flag is `true` succeeds with a
confirmation code `"RES-" ++ draw`, flips that slot's flag to `false`, appends
exactly one booking record for the key, and a second `book_table` call on the
same key then fails with the slot-unavailable result and changes nothing. -/
theorem book_table_success_spec (rn : Option String) (d t : String) (p : Nat)
    (draw : String) (s : Store) (h : slotFlag d t p s = some true) :
    (book_table rn d t p draw s).1 =
      ⟨true, some ("RES-" ++ draw), some "Booking successful."⟩ ∧
    slotFlag d t p (book_table rn d t p draw s).2 = some false ∧
    (book_table rn d t p draw s).2.bookings = s.bookings ++ [⟨d, t, p, "RES-" ++ draw⟩] ∧
    ∀ draw2 : String, book_table rn d t p draw2 (book_table rn d t p draw s).2 =
      (⟨false, none, some "The requested slot is no longer available or never existed."⟩,
       (book_table rn d t p draw s).2) := by
  have hsome : (slotFlag d t p s).isSome := by rw [h]; rfl
  have hbook := book_table_success_eq rn d t p draw s h
  have hflag : slotFlag d t p (book_table rn d t p draw s).2 = some false := by
    rw [hbook]
    exact slotFlag_clearFlag_self d t p s _ hsome
  refine ⟨by rw [hbook], hflag, by rw [hbook], fun draw2 => ?_⟩
  exact book_table_fail_eq rn d t p draw2 _ (by rw [hflag]; simp)

/-- Witness for C1 on the seeded store: date `2024-08-01`, time `19:30`,
party size `4` is seeded `true`; booking succeeds once and the repeat fails. -/
theorem book_table_success_spec_witness :
    slotFlag "2024-08-01" "19:30" 4 dummyRestaurantDB = some true ∧
    ((book_table none "2024-08-01" "19:30" 4 "ABCDEF123" dummyRestaurantDB).1 =
      ⟨true, some "RES-ABCDEF123", some "Booking successful."⟩ ∧
     slotFlag "2024-08-01" "19:30" 4
        (book_table none "2024-08-01" "19:30" 4 "ABCDEF123" dummyRestaurantDB).2 = some false ∧
     book_table none "2024-08-01" "19:30" 4 "ZZZZZZZZZ"
        (book_table none "2024-08-01" "19:30" 4 "ABCDEF123" dummyRestaurantDB).2 =
      (⟨false, none, some "The requested slot is no longer available or never existed."⟩,
       (book_table none "2024-08-01" "19:30" 4 "ABCDEF123" dummyRestaurantDB).2)) := by
  have H := book_table_success_spec none "2024-08-01" "19:30" 4 "ABCDEF123"
    dummyRestaurantDB (by decide)
  exact ⟨by decide, H.1, H.2.1, H.2.2.2 "ZZZZZZZZZ"⟩

/-- Claim C2: booking a slot that is missing at any level or whose flag is
already `false` returns the structured failure result and leaves the whole
store (availability flags and booking log) unchanged. -/
theorem book_table_unavailable_spec (rn : Option String) (d t : String) (p : Nat)
    (draw : String) (s : Store) (h : slotFlag d t p s ≠ some true) :
    book_table rn d t p draw s =
      (⟨false, none, some "The requested slot is no longer available or never existed."⟩, s) :=
  book_table_fail_eq rn d t p draw s h

/-- Witness for C2: date `2024-08-03` is not seeded, so booking it fails and
the store is returned unchanged. -/
theorem book_table_unavailable_spec_witness :
    slotFlag "2024-08-03" "19:00" 2 dummyRestaurantDB ≠ some true ∧
    book_table none "2024-08-03" "19:00" 2 "ABCDEF123" dummyRestaurantDB =
      (⟨false, none, some "The requested slot is no longer available or never existed."⟩,
       dummyRestaurantDB) :=
  ⟨by decide, book_table_unavailable_spec none "2024-08-03" "19:00" 2 "ABCDEF123"
    dummyRestaurantDB (by decide)⟩

/-! ### C10: the availability check is read-only -/

/-- Claim C10 (implicit): for every argument vector and every run state,
`check_restaurant_availability` leaves the store (every availability flag and
the booking log) and the draw counter unchanged, at the handler-dispatch level
of the orchestrator as well as at the tool-sequence level: only `book_table`
mutates state. -/
theorem availability_check_readonly :
    (∀ (supply : Nat → String) (rn : Option String) (d t : String) (p : Nat)
        (pl : Option String) (s : RunState),
      (applyTool supply (ToolCall.check rn d t p pl) s).2 = s) ∧
    (∀ (fc : FunctionCall) (st : RunState) (supply : Nat → String),
      fc.name = "check_restaurant_availability" → (dispatchPayload fc st supply).2 = st) := by
  refine ⟨fun supply rn d t p pl s => rfl, fun fc st supply hname => ?_⟩
  simp [dispatchPayload, hname]

/-- Witness for C10 at a concrete availability call on the seeded store. -/
theorem availability_check_readonly_witness :
    ((⟨none, "check_restaurant_availability", none, "2024-08-01", "19:00", 2, none⟩ :
        FunctionCall).name = "check_restaurant_availability") ∧
    (dispatchPayload ⟨none, "check_restaurant_availability", none, "2024-08-01", "19:00", 2, none⟩
        (dummyRestaurantDB, 0) (fun _ => "AAAAAAAAA")).2 = (dummyRestaurantDB, 0) :=
  ⟨rfl, availability_check_readonly.2
    ⟨none, "check_restaurant_availability", none, "2024-08-01", "19:00", 2, none⟩
    (dummyRestaurantDB, 0) (fun _ => "AAAAAAAAA") rfl⟩

/-! ### C9: the credential is checked at construction time -/

/-- Claim C9: constructing `ReservationAgentService` runs `initChat`, which
calls `getApiKey` at once: a missing (or empty, which `!apiKey` also rejects)
`API_KEY` makes construction fail with the configuration error, and a present
non-empty credential makes construction succeed. -/
theorem credential_checked_at_construction :
    (mkReservationAgentService none =
      .error "API_KEY is not defined in environment variables.") ∧
    (mkReservationAgentService (some "") =
      .error "API_KEY is not defined in environment variables.") ∧
    (∀ k : String, k ≠ "" → mkReservationAgentService (some k) = .ok ⟨k⟩) := by
  refine ⟨rfl, rfl, fun k hk => ?_⟩
  simp [mkReservationAgentService, getApiKey, hk]
  rfl

/-- Witness for C9 with a concrete non-empty credential. -/
theorem credential_checked_at_construction_witness :
    ("test-key" : String) ≠ "" ∧
    mkReservationAgentService (some "test-key") = .ok ⟨"test-key"⟩ :=
  ⟨by decide, credential_checked_at_construction.2.2 "test-key" (by decide)⟩

/-! ### C4: flag monotonicity and booking validity -/

/-- The evolutions a flag may undergo across the system: stay unchanged, or
flip from present-`true` to present-`false`. There is no other transition (in
particular never `false` back to `true`). -/
def FlagEvolves (a b : Option Bool) : Prop := b = a ∨ (a = some true ∧ b = some false)

theorem flagEvolves_refl (a : Option Bool) : FlagEvolves a a := Or.inl rfl

theorem flagEvolves_trans {a b c : Option Bool} (h1 : FlagEvolves a b)
    (h2 : FlagEvolves b c) : FlagEvolves a c := by
  rcases h1 with h1 | ⟨ha, hb⟩
  · rcases h2 with h2 | ⟨hb, hc⟩
    · exact Or.inl (h2.trans h1)
    · exact Or.inr ⟨h1 ▸ hb, hc⟩
  · rcases h2 with h2 | ⟨hb', hc⟩
    · exact Or.inr ⟨ha, h2.trans hb⟩
    · rw [hb] at hb'
      simp at hb'

/-- One handler call moves every flag along `FlagEvolves`. -/
theorem applyTool_flagEvolves (supply : Nat → String) (c : ToolCall) (s : RunState)
    (d t : String) (p : Nat) :
    FlagEvolves (slotFlag d t p s.1) (slotFlag d t p (applyTool supply c s).2.1) := by
  cases c with
  | check rn d' t' p' pl => exact flagEvolves_refl _
  | book rn d' t' p' =>
    by_cases h : slotFlag d' t' p' s.1 = some true
    · simp only [applyTool, book_table_success_eq rn d' t' p' (supply s.2) s.1 h]
      by_cases hk : d = d' ∧ t = t' ∧ p = p'
      · obtain ⟨h1, h2, h3⟩ := hk
        subst h1; subst h2; subst h3
        exact Or.inr ⟨h, slotFlag_clearFlag_self d t p s.1 _ (by rw [h]; rfl)⟩
      · exact Or.inl (slotFlag_clearFlag_ne d' t' p' d t p s.1 _ hk)
    · simp only [applyTool, book_table_fail_eq rn d' t' p' (supply s.2) s.1 h]
      exact flagEvolves_refl _

/-- Every run of handler calls moves every flag along `FlagEvolves`. -/
theorem runCalls_flagEvolves (supply : Nat → String) (calls : List ToolCall) (s : RunState)
    (d t : String) (p : Nat) :
    FlagEvolves (slotFlag d t p s.1) (slotFlag d t p (runCalls supply calls s).1) := by
  induction calls generalizing s with
  | nil => exact flagEvolves_refl _
  | cons c cs ih =>
    exact flagEvolves_trans (applyTool_flagEvolves supply c s d t p) (ih _)

theorem runCalls_append (supply : Nat → String) (l1 l2 : List ToolCall) (s : RunState) :
    runCalls supply (l1 ++ l2) s = runCalls supply l2 (runCalls supply l1 s) := by
  induction l1 generalizing s with
  | nil => rfl
  | cons c cs ih => simp [runCalls, ih]

/-- A booking present after one handler call was already present, or is the
new record of this call, whose slot was `true` just before and `false` just after. -/
theorem applyTool_bookings_mem (supply : Nat → String) (c : ToolCall) (s : RunState)
    (b : Booking) (hb : b ∈ (applyTool supply c s).2.1.bookings) :
    b ∈ s.1.bookings ∨
      (slotFlag b.date b.time b.partySize s.1 = some true ∧
       slotFlag b.date b.time b.partySize (applyTool supply c s).2.1 = some false) := by
  cases c with
  | check rn d t p pl => exact Or.inl hb
  | book rn d t p =>
    by_cases h : slotFlag d t p s.1 = some true
    · simp only [applyTool, book_table_success_eq rn d t p (supply s.2) s.1 h] at hb ⊢
      rcases List.mem_append.mp hb with h1 | h2
      · exact Or.inl h1
      · have hb2 : b = ⟨d, t, p, "RES-" ++ supply s.2⟩ := by simpa using h2
        subst hb2
        exact Or.inr ⟨h, slotFlag_clearFlag_self d t p s.1 _ (by rw [h]; rfl)⟩
    · simp only [applyTool, book_table_fail_eq rn d t p (supply s.2) s.1 h] at hb
      exact Or.inl hb

/-- Claim C4: across every sequence of tool-handler calls, each slot's flag
either stays as it is or flips once from `true` to `false` (between any two
points of the run), never `false` back to `true`; and every booking record
appended by a call corresponds to a slot that was `available = true`
immediately before that call and `available = false` immediately after. -/
theorem flag_monotone_and_booking_valid (supply : Nat → String) :
    (∀ (pre post : List ToolCall) (s : RunState) (d t : String) (p : Nat),
      FlagEvolves (slotFlag d t p (runCalls supply pre s).1)
        (slotFlag d t p (runCalls supply (pre ++ post) s).1)) ∧
    (∀ (c : ToolCall) (s : RunState) (b : Booking),
      b ∈ (applyTool supply c s).2.1.bookings →
      b ∈ s.1.bookings ∨
        (slotFlag b.date b.time b.partySize s.1 = some true ∧
         slotFlag b.date b.time b.partySize (applyTool supply c s).2.1 = some false)) := by
  refine ⟨fun pre post s d t p => ?_, fun c s b hb => applyTool_bookings_mem supply c s b hb⟩
  rw [runCalls_append]
  exact runCalls_flagEvolves supply post _ d t p

/-- Witness for C4: the booking appended by a successful call on the seeded
store had its slot `true` before and `false` after. -/
theorem flag_monotone_and_booking_valid_witness :
    ((⟨"2024-08-01", "18:00", 2, "RES-AAAAAAAAA"⟩ : Booking) ∈
      (applyTool (fun _ => "AAAAAAAAA") (ToolCall.book none "2024-08-01" "18:00" 2)
        (dummyRestaurantDB, 0)).2.1.bookings) ∧
    ((⟨"2024-08-01", "18:00", 2, "RES-AAAAAAAAA"⟩ : Booking) ∈ dummyRestaurantDB.bookings ∨
      (slotFlag "2024-08-01" "18:00" 2 dummyRestaurantDB = some true ∧
       slotFlag "2024-08-01" "18:00" 2
         (applyTool (fun _ => "AAAAAAAAA") (ToolCall.book none "2024-08-01" "18:00" 2)
           (dummyRestaurantDB, 0)).2.1 = some false)) :=
  ⟨by decide, (flag_monotone_and_booking_valid (fun _ => "AAAAAAAAA")).2
    (ToolCall.book none "2024-08-01" "18:00" 2) (dummyRestaurantDB, 0)
    ⟨"2024-08-01", "18:00", 2, "RES-AAAAAAAAA"⟩ (by decide)⟩

/-! ### C5: confirmation codes across a run -/

/-- The confirmation code minted from the `i`-th random draw of a run. -/
def confCode (supply : Nat → String) (i : Nat) : String := "RES-" ++ supply i

theorem string_append_left_cancel {s a b : String} (h : s ++ a = s ++ b) : a = b := by
  have hd : s.data ++ a.data = s.data ++ b.data := by
    rw [← String.data_append, ← String.data_append, h]
  exact String.ext (List.append_cancel_left hd)

/-- Across a run, the booking log's confirmation codes are exactly the codes
minted from the consecutive draws the successful bookings consumed. -/
theorem runCalls_confirmations (supply : Nat → String) (calls : List ToolCall) :
    ∀ s : RunState, ∃ m : Nat,
      (runCalls supply calls s).1.bookings.map Booking.confirmation =
        s.1.bookings.map Booking.confirmation ++
          (List.range' s.2 m).map (confCode supply) ∧
      (runCalls supply calls s).2 = s.2 + m := by
  induction calls with
  | nil => exact fun s => ⟨0, by simp [runCalls]⟩
  | cons c cs ih =>
    intro s
    cases c with
    | check rn d t p pl =>
      obtain ⟨m, h1, h2⟩ := ih s
      exact ⟨m, by simpa [runCalls, applyTool] using h1,
        by simpa [runCalls, applyTool] using h2⟩
    | book rn d t p =>
      by_cases h : slotFlag d t p s.1 = some true
      · have happ : (applyTool supply (.book rn d t p) s).2 =
            (⟨clearFlag d t p s.1.availability,
              s.1.bookings ++ [⟨d, t, p, "RES-" ++ supply s.2⟩]⟩, s.2 + 1) := by
          simp [applyTool, book_table_success_eq rn d t p (supply s.2) s.1 h]
        obtain ⟨m, h1, h2⟩ := ih (applyTool supply (.book rn d t p) s).2
        rw [happ] at h1 h2
        refine ⟨m + 1, ?_, ?_⟩
        · have hrun : runCalls supply (ToolCall.book rn d t p :: cs) s =
              runCalls supply cs (applyTool supply (.book rn d t p) s).2 := rfl
          rw [hrun, happ, h1]
          have hr : List.range' s.2 (m + 1) = s.2 :: List.range' (s.2 + 1) m := by
            simp [List.range'_succ]
          rw [hr]
          simp [confCode]
        · have hrun : runCalls supply (ToolCall.book rn d t p :: cs) s =
              runCalls supply cs (applyTool supply (.book rn d t p) s).2 := rfl
          rw [hrun, happ, h2]
          omega
      · have happ : (applyTool supply (.book rn d t p) s).2 = s := by
          simp [applyTool, book_table_fail_eq rn d t p (supply s.2) s.1 h]
        obtain ⟨m, h1, h2⟩ := ih s
        refine ⟨m, ?_, ?_⟩
        · have hrun : runCalls supply (ToolCall.book rn d t p :: cs) s =
              runCalls supply cs (applyTool supply (.book rn d t p) s).2 := rfl
          rw [hrun, happ]
          exact h1
        · have hrun : runCalls supply (ToolCall.book rn d t p :: cs) s =
              runCalls supply cs (applyTool supply (.book rn d t p) s).2 := rfl
          rw [hrun, happ]
          exact h2

/-- Counterexample to C5 as stated: the confirmation code is minted from
`Math.random()` with no uniqueness check, so a run of two successful bookings
whose random draws collide produces two identical confirmation codes. -/
theorem confirmation_collision_cex :
    ((runCalls (fun _ => "AAAAAAAAA")
        [ToolCall.book none "2024-08-01" "18:00" 2,
         ToolCall.book none "2024-08-01" "19:00" 2]
        (dummyRestaurantDB, 0)).1.bookings.map Booking.confirmation =
      ["RES-AAAAAAAAA", "RES-AAAAAAAAA"]) ∧
    ¬ ((runCalls (fun _ => "AAAAAAAAA")
        [ToolCall.book none "2024-08-01" "18:00" 2,
         ToolCall.book none "2024-08-01" "19:00" 2]
        (dummyRestaurantDB, 0)).1.bookings.map Booking.confirmation).Nodup := by
  constructor
  · decide
  · decide

/-- Claim C5 as amended: provided the random draws of the run are pairwise
distinct (which the source relies on `Math.random()` for, but does not
enforce), the confirmation codes of all records in the booking log of a run
started from an empty log are pairwise distinct. -/
theorem confirmation_codes_nodup (supply : Nat → String)
    (hinj : ∀ i j : Nat, supply i = supply j → i = j)
    (calls : List ToolCall) (avail : AvailMap) (k : Nat) :
    ((runCalls supply calls (⟨avail, []⟩, k)).1.bookings.map Booking.confirmation).Nodup := by
  obtain ⟨m, h1, _⟩ := runCalls_confirmations supply calls (⟨avail, []⟩, k)
  rw [h1]
  have hcode : Function.Injective (confCode supply) := fun i j hij =>
    hinj i j (string_append_left_cancel hij)
  simpa using List.Nodup.map hcode (List.nodup_range' k m)

/-- Witness for C5 (amended) with an injective draw supply on the seeded store. -/
theorem confirmation_codes_nodup_witness :
    (∀ i j : Nat, String.mk (List.replicate i 'A') = String.mk (List.replicate j 'A') → i = j) ∧
    ((runCalls (fun i => String.mk (List.replicate i 'A'))
        [ToolCall.book none "2024-08-01" "18:00" 2,
         ToolCall.book none "2024-08-01" "19:00" 2]
        (⟨seedAvailability, []⟩, 0)).1.bookings.map Booking.confirmation).Nodup := by
  have hinj : ∀ i j : Nat,
      String.mk (List.replicate i 'A') = String.mk (List.replicate j 'A') → i = j := by
    intro i j hij
    have := congrArg (fun s => s.data.length) hij
    simpa using this
  exact ⟨hinj, confirmation_codes_nodup (fun i => String.mk (List.replicate i 'A')) hinj
    [ToolCall.book none "2024-08-01" "18:00" 2,
     ToolCall.book none "2024-08-01" "19:00" 2] seedAvailability 0⟩

/-! ### C3: the alternates list -/

/-- Counterexample to C3 as stated: on the seeded store, for date
`2024-08-01`, time `18:30`, party size `4`, the exact slot is `false` and a
nearby slot is available, but the returned alternates are filtered to the
available candidates only: the known time `18:30` (distance 0, flag `false`
for party size 4) is a candidate yet does not appear in the list tagged
`false` — the list holds only the `true`-tagged candidates. -/
theorem alternates_drop_unavailable_cex :
    (alookup "2024-08-01" dummyRestaurantDB.availability =
      some [("18:00", [(2, true), (4, true)]),
            ("18:30", [(2, true), (4, false)]),
            ("19:00", [(2, true), (4, true)]),
            ("19:30", [(2, false), (4, true)]),
            ("20:00", [(2, true), (4, true)]),
            ("20:30", [(2, true), (4, false)])]) ∧
    ((⟨"18:30", false⟩ : AvailableSlot) ∈
      candidateSlots
        [("18:00", [(2, true), (4, true)]),
         ("18:30", [(2, true), (4, false)]),
         ("19:00", [(2, true), (4, true)]),
         ("19:30", [(2, false), (4, true)]),
         ("20:00", [(2, true), (4, true)]),
         ("20:30", [(2, true), (4, false)])] "18:30" 4) ∧
    (check_restaurant_availability none "2024-08-01" "18:30" 4 none
        dummyRestaurantDB).available = false ∧
    (check_restaurant_availability none "2024-08-01" "18:30" 4 none
        dummyRestaurantDB).availableSlots =
      some [⟨"18:00", true⟩, ⟨"19:00", true⟩] ∧
    (⟨"18:30", false⟩ : AvailableSlot) ∉
      [(⟨"18:00", true⟩ : AvailableSlot), ⟨"19:00", true⟩] := by
  refine ⟨by decide, by decide, by decide, by decide, by decide⟩

/-- Claim C3 as amended: when the requested slot is not available but some
candidate within 30 minutes (inclusive) is, the result is `available = false`
with a non-empty alternates list holding exactly the *available* candidates —
the known times of that date within 30 minutes of the requested time whose
flag for that party size is `true` (unavailable candidates are filtered out,
not tagged `false`) — each tagged `true` and sorted ascending by clock time. -/
theorem alternates_available_sorted (rn : Option String) (d t : String) (p : Nat)
    (pl : Option String) (store : Store) (dm : DayMap)
    (hd : alookup d store.availability = some dm)
    (hexact : requestedAvail dm t p = false)
    (halt : (candidateSlots dm t p).any (fun s => s.isAvailable) = true) :
    (check_restaurant_availability rn d t p pl store).available = false ∧
    ∃ l, (check_restaurant_availability rn d t p pl store).availableSlots = some l ∧
      l ≠ [] ∧
      (∀ a ∈ l, a.isAvailable = true) ∧
      (∀ a : AvailableSlot, a ∈ l ↔ a ∈ candidateSlots dm t p ∧ a.isAvailable = true) ∧
      List.Sorted slotLe l := by
  classical
  obtain ⟨a, ha, hav⟩ := List.any_eq_true.mp halt
  have hamem : a ∈ sortSlots (candidateSlots dm t p) :=
    (List.perm_insertionSort slotLe (candidateSlots dm t p)).mem_iff.mpr ha
  have haL : a ∈ (sortSlots (candidateSlots dm t p)).filter (fun s => s.isAvailable) :=
    List.mem_filter.mpr ⟨hamem, hav⟩
  have hlen : ((sortSlots (candidateSlots dm t p)).filter (fun s => s.isAvailable)).length > 0 :=
    List.length_pos.mpr (List.ne_nil_of_mem haL)
  have hcheck : check_restaurant_availability rn d t p pl store =
      ⟨false, some ((sortSlots (candidateSlots dm t p)).filter (fun s => s.isAvailable)),
        some "Requested slot unavailable, but other nearby slots are available."⟩ := by
    unfold check_restaurant_availability
    rw [hd]
    simp only [hexact, if_false, Bool.false_eq_true]
    rw [if_pos hlen]
  rw [hcheck]
  refine ⟨rfl, (sortSlots (candidateSlots dm t p)).filter (fun s => s.isAvailable), rfl,
    List.ne_nil_of_mem haL, ?_, ?_, ?_⟩
  · intro b hb
    exact (List.mem_filter.mp hb).2
  · intro b
    constructor
    · intro hb
      obtain ⟨hb1, hb2⟩ := List.mem_filter.mp hb
      exact ⟨(List.perm_insertionSort slotLe (candidateSlots dm t p)).mem_iff.mp hb1, hb2⟩
    · intro hb
      exact List.mem_filter.mpr
        ⟨(List.perm_insertionSort slotLe (candidateSlots dm t p)).mem_iff.mpr hb.1, hb.2⟩
  · exact List.Pairwise.sublist (List.filter_sublist _)
      (List.sorted_insertionSort slotLe (candidateSlots dm t p))

/-- Witness for C3 (amended): the spec's own example, date `2024-08-01`, time
`19:30`, party size `2`. -/
theorem alternates_available_sorted_witness :
    (alookup "2024-08-01" dummyRestaurantDB.availability =
      some [("18:00", [(2, true), (4, true)]),
            ("18:30", [(2, true), (4, false)]),
            ("19:00", [(2, true), (4, true)]),
            ("19:30", [(2, false), (4, true)]),
            ("20:00", [(2, true), (4, true)]),
            ("20:30", [(2, true), (4, false)])]) ∧
    ((check_restaurant_availability none "2024-08-01" "19:30" 2 none
        dummyRestaurantDB).available = false ∧
     ∃ l, (check_restaurant_availability none "2024-08-01" "19:30" 2 none
        dummyRestaurantDB).availableSlots = some l ∧
      l ≠ [] ∧
      (∀ a ∈ l, a.isAvailable = true) ∧
      (∀ a : AvailableSlot, a ∈ l ↔
        a ∈ candidateSlots
          [("18:00", [(2, true), (4, true)]),
           ("18:30", [(2, true), (4, false)]),
           ("19:00", [(2, true), (4, true)]),
           ("19:30", [(2, false), (4, true)]),
           ("20:00", [(2, true), (4, true)]),
           ("20:30", [(2, true), (4, false)])] "19:30" 2 ∧ a.isAvailable = true) ∧
      List.Sorted slotLe l) :=
  ⟨by decide, alternates_available_sorted none "2024-08-01" "19:30" 2 none dummyRestaurantDB
    [("18:00", [(2, true), (4, true)]),
     ("18:30", [(2, true), (4, false)]),
     ("19:00", [(2, true), (4, true)]),
     ("19:30", [(2, false), (4, true)]),
     ("20:00", [(2, true), (4, true)]),
     ("20:30", [(2, true), (4, false)])] (by decide) (by decide) (by decide)⟩

/-! ### C6: only the first tool call of a batch is processed -/

/-- Counterexample to C6 as stated: with a model response carrying two tool
calls, the returned `functionCalls` trace records only the first call — the
loop pushes each call's trace entry at the top of its iteration but returns
inside the first iteration, so the second call is neither executed nor even
recorded as "called". -/
theorem batch_trace_only_first_cex :
    (sendMessage
        ⟨Except.ok ⟨some "thinking",
          [⟨some "id1", "check_restaurant_availability", none, "2024-08-01", "19:00", 2, none⟩,
           ⟨some "id2", "book_table", none, "2024-08-01", "19:00", 2, none⟩]⟩,
         fun _ => Except.ok ⟨some "done", []⟩⟩
        (fun _ => "AAAAAAAAA") (dummyRestaurantDB, 0)).1.functionCalls =
      some [⟨⟨some "id1", "check_restaurant_availability", none, "2024-08-01", "19:00", 2,
        none⟩⟩] ∧
    (⟨⟨some "id2", "book_table", none, "2024-08-01", "19:00", 2, none⟩⟩ : FunctionCallTrace) ∉
      [(⟨⟨some "id1", "check_restaurant_availability", none, "2024-08-01", "19:00", 2,
        none⟩⟩ : FunctionCallTrace)] :=
  ⟨by decide, by decide⟩

/-- Claim C6 as amended: for a model response carrying a batch of tool calls
headed by a registered call, the orchestrator completes the round trip
(execute, send result back, take the follow-up text as `finalText`) for the
first call only; the remaining calls of the batch are neither executed (the
final state is exactly the first call's dispatch state) nor recorded — both
returned traces hold exactly the first call's entries. -/
theorem first_call_round_trip_only (supply : Nat → String) (st : RunState)
    (text0 : Option String) (fc : FunctionCall) (rest : List FunctionCall)
    (fu : FunctionResponsePart → Except String ModelResponse) (r2 : ModelResponse)
    (hreg : registryHas fc.name = true)
    (hfu : fu ⟨fc.id, fc.name, (dispatchPayload fc st supply).1⟩ = Except.ok r2) :
    sendMessage ⟨Except.ok ⟨text0, fc :: rest⟩, fu⟩ supply st =
      (⟨r2.text.getD "", some [⟨fc⟩], some [⟨fc.name, (dispatchPayload fc st supply).1⟩]⟩,
       (dispatchPayload fc st supply).2) := by
  simp only [sendMessage, hreg, if_true, hfu]

/-- Witness for C6 (amended): a two-call batch on the seeded store. -/
theorem first_call_round_trip_only_witness :
    registryHas "check_restaurant_availability" = true ∧
    sendMessage
        ⟨Except.ok ⟨some "thinking",
          [⟨some "id1", "check_restaurant_availability", none, "2024-08-01", "19:00", 2, none⟩,
           ⟨some "id2", "book_table", none, "2024-08-01", "19:00", 2, none⟩]⟩,
         fun _ => Except.ok ⟨some "done", []⟩⟩
        (fun _ => "AAAAAAAAA") (dummyRestaurantDB, 0) =
      (⟨"done",
        some [⟨⟨some "id1", "check_restaurant_availability", none, "2024-08-01", "19:00", 2,
          none⟩⟩],
        some [⟨"check_restaurant_availability",
          (dispatchPayload
            ⟨some "id1", "check_restaurant_availability", none, "2024-08-01", "19:00", 2, none⟩
            (dummyRestaurantDB, 0) (fun _ => "AAAAAAAAA")).1⟩]⟩,
       (dispatchPayload
          ⟨some "id1", "check_restaurant_availability", none, "2024-08-01", "19:00", 2, none⟩
          (dummyRestaurantDB, 0) (fun _ => "AAAAAAAAA")).2) :=
  ⟨rfl, first_call_round_trip_only (fun _ => "AAAAAAAAA") (dummyRestaurantDB, 0)
    (some "thinking")
    ⟨some "id1", "check_restaurant_availability", none, "2024-08-01", "19:00", 2, none⟩
    [⟨some "id2", "book_table", none, "2024-08-01", "19:00", 2, none⟩]
    (fun _ => Except.ok ⟨some "done", []⟩) ⟨some "done", []⟩ rfl rfl⟩

/-! ### C7: unknown tool name -/

/-- Counterexample to C7 as stated: the orchestrator does record the
structured `Function foo not found.` ToolResult and completes the turn, but
`finalText` is whatever the model's follow-up text is — here the model
returns no text and `finalText` is the empty string, so the "non-empty
finalText" part of the claim fails. -/
theorem unknown_tool_empty_finaltext_cex :
    registryHas "foo" = false ∧
    (sendMessage ⟨Except.ok ⟨some "t", [⟨some "id9", "foo", none, "x", "y", 0, none⟩]⟩,
        fun _ => Except.ok ⟨none, []⟩⟩ (fun _ => "AAAAAAAAA") (dummyRestaurantDB, 0)).1 =
      ⟨"", some [⟨⟨some "id9", "foo", none, "x", "y", 0, none⟩⟩],
        some [⟨"foo", ToolPayload.error "Function foo not found."⟩]⟩ :=
  ⟨by decide, by decide⟩

/-- Claim C7 as amended: for a model response whose first requested tool name
has a falsy lookup in the tool table (it is neither of the two registered
tools nor an `Object.prototype`-inherited property name), the orchestrator
does not raise: it records the structured `{error: Function name not found.}`
ToolResult, sends that payload back to the model tagged with the originating
call id, leaves the state unchanged, and completes the turn with `finalText`
equal to the model's follow-up text (which may be empty). For a name whose
lookup is truthy only through prototype inheritance (e.g. `toString`), the
source instead takes the registered branch, falls through both dispatch
tests, and records `{error: Function name not handled.}` — same round trip,
same unchanged state. -/
theorem unknown_tool_structured_error :
    (∀ (supply : Nat → String) (st : RunState) (text0 : Option String) (fc : FunctionCall)
        (rest : List FunctionCall) (fu : FunctionResponsePart → Except String ModelResponse)
        (r2 : ModelResponse),
      registryHas fc.name = false →
      fu ⟨fc.id, fc.name, ToolPayload.error ("Function " ++ fc.name ++ " not found.")⟩ =
        Except.ok r2 →
      sendMessage ⟨Except.ok ⟨text0, fc :: rest⟩, fu⟩ supply st =
        (⟨r2.text.getD "", some [⟨fc⟩],
          some [⟨fc.name, ToolPayload.error ("Function " ++ fc.name ++ " not found.")⟩]⟩,
         st)) ∧
    (∀ (supply : Nat → String) (st : RunState) (text0 : Option String) (fc : FunctionCall)
        (rest : List FunctionCall) (fu : FunctionResponsePart → Except String ModelResponse)
        (r2 : ModelResponse),
      registryHas fc.name = true →
      fc.name ≠ "check_restaurant_availability" →
      fc.name ≠ "book_table" →
      fu ⟨fc.id, fc.name, ToolPayload.error ("Function " ++ fc.name ++ " not handled.")⟩ =
        Except.ok r2 →
      sendMessage ⟨Except.ok ⟨text0, fc :: rest⟩, fu⟩ supply st =
        (⟨r2.text.getD "", some [⟨fc⟩],
          some [⟨fc.name, ToolPayload.error ("Function " ++ fc.name ++ " not handled.")⟩]⟩,
         st)) := by
  constructor
  · intro supply st text0 fc rest fu r2 hreg hfu
    simp only [sendMessage, hreg, Bool.false_eq_true, if_false, hfu]
  · intro supply st text0 fc rest fu r2 hreg h1 h2 hfu
    have hb1 : (fc.name == "check_restaurant_availability") = false := by
      simp [h1]
    have hb2 : (fc.name == "book_table") = false := by
      simp [h2]
    simp only [sendMessage, hreg, if_true, dispatchPayload, hb1, hb2, Bool.false_eq_true,
      if_false, hfu]

/-- Witness for C7 (amended): the unknown name `foo` takes the not-found path
with the state untouched; the prototype-inherited name `toString` takes the
not-handled path, likewise with the state untouched. -/
theorem unknown_tool_structured_error_witness :
    registryHas "foo" = false ∧
    sendMessage ⟨Except.ok ⟨some "t", [⟨some "id9", "foo", none, "x", "y", 0, none⟩]⟩,
        fun _ => Except.ok ⟨some "handled", []⟩⟩ (fun _ => "AAAAAAAAA")
        (dummyRestaurantDB, 0) =
      (⟨"handled", some [⟨⟨some "id9", "foo", none, "x", "y", 0, none⟩⟩],
        some [⟨"foo", ToolPayload.error ("Function " ++ "foo" ++ " not found.")⟩]⟩,
       (dummyRestaurantDB, 0)) ∧
    registryHas "toString" = true ∧
    sendMessage ⟨Except.ok ⟨some "t", [⟨some "id8", "toString", none, "x", "y", 0, none⟩]⟩,
        fun _ => Except.ok ⟨some "fell through", []⟩⟩ (fun _ => "AAAAAAAAA")
        (dummyRestaurantDB, 0) =
      (⟨"fell through", some [⟨⟨some "id8", "toString", none, "x", "y", 0, none⟩⟩],
        some [⟨"toString",
          ToolPayload.error ("Function " ++ "toString" ++ " not handled.")⟩]⟩,
       (dummyRestaurantDB, 0)) :=
  ⟨rfl,
   unknown_tool_structured_error.1 (fun _ => "AAAAAAAAA") (dummyRestaurantDB, 0) (some "t")
     ⟨some "id9", "foo", none, "x", "y", 0, none⟩ []
     (fun _ => Except.ok ⟨some "handled", []⟩) ⟨some "handled", []⟩ rfl rfl,
   rfl,
   unknown_tool_structured_error.2 (fun _ => "AAAAAAAAA") (dummyRestaurantDB, 0) (some "t")
     ⟨some "id8", "toString", none, "x", "y", 0, none⟩ []
     (fun _ => Except.ok ⟨some "fell through", []⟩) ⟨some "fell through", []⟩ rfl
     (by decide) (by decide) rfl⟩

/-! ### C8: model-client failures are classified, never propagated -/

/-- Claim C8: a failure raised by the chat client is never propagated and is
not retried: if the initial call throws, the turn returns the classified
message (the `400 Bad Request` + `requested entity was not found` sub-kind
yields the credential-reselection message, any other error the plain-language
message) with the thrown state; if the follow-up call throws (for whichever
payload was sent), the turn likewise returns the classified text. In all
cases the turn yields a `finalText`. -/
theorem model_failure_classified :
    (∀ (fu : FunctionResponsePart → Except String ModelResponse) (supply : Nat → String)
        (st : RunState) (e : String),
      sendMessage ⟨Except.error e, fu⟩ supply st =
        (⟨if containsSub e "400 Bad Request" &&
              containsSub e "requested entity was not found" then
            "I encountered an issue processing your request. Please try again or re-select your API key if prompted."
          else "Sorry, I encountered an error: " ++ e, none, none⟩, st)) ∧
    (∀ (text0 : Option String) (fc : FunctionCall) (rest : List FunctionCall)
        (fu : FunctionResponsePart → Except String ModelResponse) (supply : Nat → String)
        (st : RunState) (e : String),
      (∀ part, fu part = Except.error e) →
      (sendMessage ⟨Except.ok ⟨text0, fc :: rest⟩, fu⟩ supply st).1 =
        ⟨classifyError e, none, none⟩) := by
  constructor
  · intro fu supply st e
    rfl
  · intro text0 fc rest fu supply st e hfu
    by_cases hreg : registryHas fc.name = true
    · simp only [sendMessage, hreg, if_true, hfu]
    · simp only [Bool.not_eq_true] at hreg
      simp only [sendMessage, hreg, Bool.false_eq_true, if_false, hfu]

/-- Witness for C8: a follow-up failure with message `boom` yields the
plain-language classified text. -/
theorem model_failure_classified_witness :
    (sendMessage
        ⟨Except.ok ⟨some "t", [⟨none, "book_table", none, "2024-08-01", "19:00", 2, none⟩]⟩,
         fun _ => Except.error "boom"⟩ (fun _ => "AAAAAAAAA") (dummyRestaurantDB, 0)).1 =
      ⟨classifyError "boom", none, none⟩ :=
  model_failure_classified.2 (some "t")
    ⟨none, "book_table", none, "2024-08-01", "19:00", 2, none⟩ []
    (fun _ => Except.error "boom") (fun _ => "AAAAAAAAA") (dummyRestaurantDB, 0) "boom"
    (fun _ => rfl)
